import Mathlib

/-!
Verification of the copilot-usage-advanced-dashboard data pipelines.

A shallow embedding of the two Python modules under `src/cpuad-updater/`
(`fetch_developer_activity.py` and `generate_mock_data.py`), together with
theorems settling the specification claims about them.

Modelling conventions:
* calendar dates are day numbers (`Int`, days since 1970-01-01); Python's
  `strftime("%Y-%m-%d")` is `formatDay`, and `date.weekday()` is `weekday`
  (Monday = 0; day 0 = 1970-01-01 was a Thursday, weekday 3);
* Python `float` arithmetic is modelled over `Rat`; `int(x)` is `truncInt`
  (truncation toward zero) and `round(x, 2)` is `round2` (round half to even
  at two decimals; exact binary-float artefacts of `round` are not modelled);
* every call to the `random` module is an explicit field of a "draw" structure
  (`ActivityRand`, `CopilotRand`); the contracts of `random.randint`/`uniform`
  (results lie in the requested closed range) appear as hypotheses where needed;
* HTTP responses are explicit values: a paged listing endpoint is a list of
  `RestResp` pages (`ok` with the parsed body, or `apiError` for a non-200 /
  transport failure, which `_make_rest_request` replaces by its
  `error_return_value`, the empty list).
-/

/-! ## SHA-256 (as used by `hashlib.sha256(...).hexdigest()`)

A direct implementation of FIPS 180-4 over byte lists, with 32-bit words
represented as `Nat` reduced mod 2^32. -/

def w32 (n : Nat) : Nat := n % 4294967296

def rotr32 (x n : Nat) : Nat := w32 ((x >>> n) ||| (x <<< (32 - n)))

def bytesToWordsBE : List Nat → List Nat
  | b0 :: b1 :: b2 :: b3 :: rest =>
      (((b0 * 256 + b1) * 256 + b2) * 256 + b3) :: bytesToWordsBE rest
  | _ => []

def natToBytesBE (numBytes v : Nat) : List Nat :=
  (List.range numBytes).map (fun i => (v >>> (8 * (numBytes - 1 - i))) % 256)

def sha256Pad (msg : List Nat) : List Nat :=
  msg ++ 128 :: List.replicate ((119 - msg.length % 64) % 64) 0
      ++ natToBytesBE 8 (msg.length * 8)

def chunks64 (l : List Nat) : List (List Nat) :=
  if h : l = [] then [] else l.take 64 :: chunks64 (l.drop 64)
termination_by l.length
decreasing_by
  have := List.length_pos.mpr h
  simp only [List.length_drop]
  omega

/-- The 64 SHA-256 round constants (FIPS 180-4), written in decimal. -/
def sha256K : List Nat :=
  [1116352408, 1899447441, 3049323471, 3921009573, 961987163,
   1508970993, 2453635748, 2870763221, 3624381080, 310598401,
   607225278, 1426881987, 1925078388, 2162078206, 2614888103,
   3248222580, 3835390401, 4022224774, 264347078, 604807628,
   770255983, 1249150122, 1555081692, 1996064986, 2554220882,
   2821834349, 2952996808, 3210313671, 3336571891, 3584528711,
   113926993, 338241895, 666307205, 773529912, 1294757372,
   1396182291, 1695183700, 1986661051, 2177026350, 2456956037,
   2730485921, 2820302411, 3259730800, 3345764771, 3516065817,
   3600352804, 4094571909, 275423344, 430227734, 506948616,
   659060556, 883997877, 958139571, 1322822218, 1537002063,
   1747873779, 1955562222, 2024104815, 2227730452, 2361852424,
   2428436474, 2756734187, 3204031479, 3329325298]

/-- The eight SHA-256 initial hash values (FIPS 180-4), written in decimal. -/
def sha256H0 : List Nat :=
  [1779033703, 3144134277, 1013904242,
   2773480762, 1359893119, 2600822924,
   528734635, 1541459225]

structure Sha8 where
  a : Nat
  b : Nat
  c : Nat
  d : Nat
  e : Nat
  f : Nat
  g : Nat
  h : Nat

def scheduleExtend (ws : Array Nat) : Nat → Array Nat
  | 0 => ws
  | fuel + 1 =>
      let i := ws.size
      let w15 := ws.getD (i - 15) 0
      let w2 := ws.getD (i - 2) 0
      let w16 := ws.getD (i - 16) 0
      let w7 := ws.getD (i - 7) 0
      let s0 := (rotr32 w15 7) ^^^ (rotr32 w15 18) ^^^ (w15 >>> 3)
      let s1 := (rotr32 w2 17) ^^^ (rotr32 w2 19) ^^^ (w2 >>> 10)
      scheduleExtend (ws.push (w32 (w16 + s0 + w7 + s1))) fuel

def sha256Compress (st : Sha8) (w k : Nat) : Sha8 :=
  let s1 := (rotr32 st.e 6) ^^^ (rotr32 st.e 11) ^^^ (rotr32 st.e 25)
  let ch := (st.e &&& st.f) ^^^ ((4294967295 - st.e) &&& st.g)
  let temp1 := w32 (st.h + s1 + ch + k + w)
  let s0 := (rotr32 st.a 2) ^^^ (rotr32 st.a 13) ^^^ (rotr32 st.a 22)
  let maj := (st.a &&& st.b) ^^^ (st.a &&& st.c) ^^^ (st.b &&& st.c)
  let temp2 := w32 (s0 + maj)
  { a := w32 (temp1 + temp2), b := st.a, c := st.b, d := st.c,
    e := w32 (st.d + temp1), f := st.e, g := st.f, h := st.g }

def sha256Block (hs : List Nat) (block : List Nat) : List Nat :=
  let ws := scheduleExtend (bytesToWordsBE block).toArray 48
  let init : Sha8 :=
    { a := hs.getD 0 0, b := hs.getD 1 0, c := hs.getD 2 0, d := hs.getD 3 0,
      e := hs.getD 4 0, f := hs.getD 5 0, g := hs.getD 6 0, h := hs.getD 7 0 }
  let fin := (List.range 64).foldl
    (fun st i => sha256Compress st (ws.getD i 0) (sha256K.getD i 0)) init
  [w32 (hs.getD 0 0 + fin.a), w32 (hs.getD 1 0 + fin.b), w32 (hs.getD 2 0 + fin.c),
   w32 (hs.getD 3 0 + fin.d), w32 (hs.getD 4 0 + fin.e), w32 (hs.getD 5 0 + fin.f),
   w32 (hs.getD 6 0 + fin.g), w32 (hs.getD 7 0 + fin.h)]

def sha256Words (msg : List Nat) : List Nat :=
  (chunks64 (sha256Pad msg)).foldl sha256Block sha256H0

def hexDigitChar (n : Nat) : Char :=
  if n < 10 then Char.ofNat (48 + n) else Char.ofNat (87 + n)

def wordToHex (w : Nat) : String :=
  String.mk ((List.range 8).map (fun i => hexDigitChar ((w >>> (4 * (7 - i))) % 16)))

def sha256HexOfBytes (msg : List Nat) : String :=
  String.join ((sha256Words msg).map wordToHex)

def utf8Bytes (s : String) : List Nat := s.toUTF8.toList.map (fun b => b.toNat)

/-- Function `generate_unique_hash(data, key_properties)` (identical in both modules):
joins the stringified key-property values with `"-"`, serializing a missing or
`None` value as `""` (Python's `dict.get` returns `None` in both cases), and
returns the SHA-256 hex digest of the UTF-8 encoding.  `data` is modelled as
the stringified-field lookup of the record dict. -/
def generate_unique_hash (data : String → Option String) (key_properties : List String) : String :=
  let key_elements := key_properties.map (fun k => (data k).getD "")
  let key_string := String.intercalate "-" key_elements
  sha256HexOfBytes (utf8Bytes key_string)

/-! ## Calendar helpers -/

/-- Python `date.weekday()`: Monday = 0.  Day number 0 (1970-01-01) was a
Thursday. -/
def weekday (z : Int) : Int := (z + 3) % 7

/-- Predicate `is_workday(date)` from `generate_mock_data.py`: `date.weekday() < 5`. -/
def is_workday (z : Int) : Bool := decide (weekday z < 5)

/-- Day number to `(year, month, day)` (proleptic Gregorian); the divisions are
truncating, matching the reference civil-from-days algorithm. -/
def civilFromDays (z0 : Int) : Int × Int × Int :=
  let z := z0 + 719468
  let era := Int.tdiv (if 0 ≤ z then z else z - 146096) 146097
  let doe := z - era * 146097
  let yoe := Int.tdiv (doe - Int.tdiv doe 1460 + Int.tdiv doe 36524 - Int.tdiv doe 146096) 365
  let y := yoe + era * 400
  let doy := doe - (365 * yoe + Int.tdiv yoe 4 - Int.tdiv yoe 100)
  let mp := Int.tdiv (5 * doy + 2) 153
  let d := doy - Int.tdiv (153 * mp + 2) 5 + 1
  let m := mp + (if mp < 10 then 3 else -9)
  (y + (if m ≤ 2 then 1 else 0), m, d)

def pad2 (n : Int) : String :=
  if 0 ≤ n ∧ n < 10 then "0" ++ toString n else toString n

def pad4 (n : Int) : String :=
  if 0 ≤ n ∧ n < 10 then "000" ++ toString n
  else if 0 ≤ n ∧ n < 100 then "00" ++ toString n
  else if 0 ≤ n ∧ n < 1000 then "0" ++ toString n
  else toString n

/-- Python `strftime("%Y-%m-%d")` on a day number. -/
def formatDay (z : Int) : String :=
  let ymd := civilFromDays z
  pad4 ymd.1 ++ "-" ++ pad2 ymd.2.1 ++ "-" ++ pad2 ymd.2.2

/-! ## Python numeric coercions -/

/-- Python `int(x)`: truncation toward zero. -/
def truncInt (x : Rat) : Int := if 0 ≤ x then ⌊x⌋ else -⌊-x⌋

/-- Python `round(x, 2)`: round half to even at two decimal places
(modelled exactly over the rationals; binary floating-point representation
error of the Python original is not modelled). -/
def round2 (x : Rat) : Rat :=
  let y := x * 100
  let f := ⌊y⌋
  let r := y - (f : Rat)
  let n : Int :=
    if r < 1/2 then f else if 1/2 < r then f + 1 else if f % 2 = 0 then f else f + 1
  (n : Rat) / 100


/-! ## Mock data simulator: configuration and personas (`generate_mock_data.py`) -/

def ORGANIZATION_SLUG : String := "acme-corp"

def SLUG_TYPE : String := "Organization"

/-- One entry of `DEVELOPER_PERSONAS`. -/
structure Persona where
  base_commits : Int × Int
  base_prs : Int × Int
  base_reviews : Int × Int
  copilot_multiplier : Rat
  copilot_adoption_rate : Rat
  acceptance_rate_range : Rat × Rat
  features : List String

def power_user : Persona :=
  { base_commits := (3, 7), base_prs := (1, 2), base_reviews := (2, 4),
    copilot_multiplier := 130/100, copilot_adoption_rate := 92/100,
    acceptance_rate_range := (30/100, 40/100),
    features := ["code_completion", "chat_panel_ask_mode", "chat_panel_agent_mode", "inline_chat"] }

def regular : Persona :=
  { base_commits := (2, 5), base_prs := (0, 2), base_reviews := (1, 3),
    copilot_multiplier := 120/100, copilot_adoption_rate := 75/100,
    acceptance_rate_range := (25/100, 32/100),
    features := ["code_completion", "chat_panel_ask_mode"] }

def occasional : Persona :=
  { base_commits := (1, 3), base_prs := (0, 1), base_reviews := (1, 2),
    copilot_multiplier := 110/100, copilot_adoption_rate := 45/100,
    acceptance_rate_range := (20/100, 28/100),
    features := ["code_completion"] }

def skeptic : Persona :=
  { base_commits := (1, 3), base_prs := (0, 1), base_reviews := (1, 2),
    copilot_multiplier := 105/100, copilot_adoption_rate := 25/100,
    acceptance_rate_range := (15/100, 22/100),
    features := ["code_completion"] }

structure Ide where
  name : String
  weight : Rat
  plugin_version : String

def MODELS : List String := ["gpt-4o", "gpt-4o-mini", "claude-3.5-sonnet", "o1-preview"]

def FEATURES : List String :=
  ["code_completion", "chat_panel_ask_mode", "chat_panel_agent_mode", "inline_chat", "agent_edit"]

/-- A simulated developer profile as produced by `create_developers()`. -/
structure Developer where
  user_login : String
  user_id : Int
  team : String
  repos : List String
  languages : List String
  persona : String
  persona_config : Persona
  primary_ide : Ide
  seniority : String

/-- Function `get_activity_modifier(date, copilot_adoption_date)`: the adoption-ramp
step schedule over `days_since_adoption = (date - copilot_adoption_date).days`. -/
def get_activity_modifier (date copilot_adoption_date : Int) : Rat :=
  if date < copilot_adoption_date then 1
  else
    let days_since_adoption := date - copilot_adoption_date
    if days_since_adoption < 7 then 98/100
    else if days_since_adoption < 14 then 102/100
    else if days_since_adoption < 21 then 108/100
    else if days_since_adoption < 28 then 115/100
    else if days_since_adoption < 35 then 120/100
    else if days_since_adoption < 42 then 125/100
    else if days_since_adoption < 56 then 128/100
    else 130/100

/-! ## Mock data simulator: daily developer-activity records -/

/-- The `random` draws consumed by one call of
`generate_developer_activity_for_day`, in source order. -/
structure ActivityRand where
  weekend_draw : Rat
  vacation_draw : Rat
  base_commits_draw : Int
  base_prs_draw : Int
  base_reviews_draw : Int
  commit_jitter : Rat
  pr_jitter : Rat
  review_jitter : Rat
  merged_frac : Rat
  comment_mult : Int
  issues_opened_draw : Int
  issues_closed_draw : Int
  issue_comments_draw : Int
  repos_draw : Int

/-- The record dict built by `generate_developer_activity_for_day` (day fields
held as day numbers; `formatDay` recovers the `%Y-%m-%d` strings). -/
structure MockActivityRecord where
  day : Int
  report_start_day : Int
  report_end_day : Int
  period_days : Int
  user_login : String
  organization_slug : String
  slug_type : String
  last_updated_at : String
  utc_offset : String
  commit_count : Int
  repos_contributed : Int
  prs_opened : Int
  prs_merged : Int
  prs_reviewed : Int
  pr_comments : Int
  prs_closed : Int
  issues_opened : Int
  issues_closed : Int
  issue_comments : Int
  total_contributions : Int
  code_review_activity : Int
  commits_per_day : Rat
  prs_per_day : Rat
  reviews_per_day : Rat
  team : String
  primary_language : String
  seniority : String
  unique_hash : String

/-- Stringification of a rate field for `dict.get`/`str` purposes (Python
float repr is approximated by the rational's string; no rate field is ever a
hash key, so the exact spelling is never relied upon). -/
def ratStr (q : Rat) : String := toString q

/-- Lookup (`dict.get`) over the activity record's stringified fields. -/
def MockActivityRecord.fieldGet (r : MockActivityRecord) : String → Option String
  | "day" => some (formatDay r.day)
  | "report_start_day" => some (formatDay r.report_start_day)
  | "report_end_day" => some (formatDay r.report_end_day)
  | "period_days" => some (toString r.period_days)
  | "user_login" => some r.user_login
  | "organization_slug" => some r.organization_slug
  | "slug_type" => some r.slug_type
  | "last_updated_at" => some r.last_updated_at
  | "utc_offset" => some r.utc_offset
  | "commit_count" => some (toString r.commit_count)
  | "repos_contributed" => some (toString r.repos_contributed)
  | "prs_opened" => some (toString r.prs_opened)
  | "prs_merged" => some (toString r.prs_merged)
  | "prs_reviewed" => some (toString r.prs_reviewed)
  | "pr_comments" => some (toString r.pr_comments)
  | "prs_closed" => some (toString r.prs_closed)
  | "issues_opened" => some (toString r.issues_opened)
  | "issues_closed" => some (toString r.issues_closed)
  | "issue_comments" => some (toString r.issue_comments)
  | "total_contributions" => some (toString r.total_contributions)
  | "code_review_activity" => some (toString r.code_review_activity)
  | "commits_per_day" => some (ratStr r.commits_per_day)
  | "prs_per_day" => some (ratStr r.prs_per_day)
  | "reviews_per_day" => some (ratStr r.reviews_per_day)
  | "team" => some r.team
  | "primary_language" => some r.primary_language
  | "seniority" => some r.seniority
  | "unique_hash" => some r.unique_hash
  | _ => none

def mock_activity_key_properties : List String := ["organization_slug", "user_login", "day"]

/-- The body of `generate_developer_activity_for_day` with the productivity
`modifier` (computed from the adoption date at lines 362-368 of the source)
passed in explicitly; the weekend/vacation gates and everything downstream of
the modifier are verbatim. -/
def generate_developer_activity_core (dev : Developer) (date : Int) (r : ActivityRand)
    (ts : String) (modifier : Rat) : Option MockActivityRecord :=
  if is_workday date = false ∧ r.weekend_draw > 15/100 then none
  else if r.vacation_draw < 5/100 then none
  else
    let commits := truncInt ((r.base_commits_draw : Rat) * modifier * r.commit_jitter)
    let prs_opened := truncInt ((r.base_prs_draw : Rat) * modifier * r.pr_jitter)
    let prs_reviewed := truncInt ((r.base_reviews_draw : Rat) * modifier * r.review_jitter)
    let prs_merged := truncInt ((prs_opened : Rat) * r.merged_frac)
    let pr_comments := prs_reviewed * r.comment_mult
    let issues_opened := r.issues_opened_draw
    let issues_closed := r.issues_closed_draw
    let repos_contributed := min (dev.repos.length : Int) r.repos_draw
    let total_contributions := commits + prs_opened + prs_merged + prs_reviewed + issues_opened
    let code_review_activity := prs_reviewed + pr_comments
    let period_days : Int := 1
    let rec0 : MockActivityRecord :=
      { day := date, report_start_day := date, report_end_day := date,
        period_days := period_days,
        user_login := dev.user_login, organization_slug := ORGANIZATION_SLUG,
        slug_type := SLUG_TYPE, last_updated_at := ts, utc_offset := "+00:00",
        commit_count := commits, repos_contributed := repos_contributed,
        prs_opened := prs_opened, prs_merged := prs_merged, prs_reviewed := prs_reviewed,
        pr_comments := pr_comments, prs_closed := prs_merged,
        issues_opened := issues_opened, issues_closed := issues_closed,
        issue_comments := r.issue_comments_draw,
        total_contributions := total_contributions,
        code_review_activity := code_review_activity,
        commits_per_day := round2 ((commits : Rat) / (period_days : Rat)),
        prs_per_day := round2 ((prs_opened : Rat) / (period_days : Rat)),
        reviews_per_day := round2 ((prs_reviewed : Rat) / (period_days : Rat)),
        -- `developer["languages"][0]`; the simulated teams always carry a
        -- non-empty language list.
        team := dev.team, primary_language := dev.languages.headD "",
        seniority := dev.seniority, unique_hash := "" }
    some { rec0 with
            unique_hash := generate_unique_hash rec0.fieldGet mock_activity_key_properties }

/-- Function `generate_developer_activity_for_day(developer, date, copilot_adoption_date)`:
selects the productivity modifier (adoption ramp times the persona multiplier
on/after adoption, `1.0` strictly before) and builds the day's record. -/
def generate_developer_activity_for_day (dev : Developer) (date copilot_adoption_date : Int)
    (r : ActivityRand) (ts : String) : Option MockActivityRecord :=
  generate_developer_activity_core dev date r ts
    (if copilot_adoption_date ≤ date then
       get_activity_modifier date copilot_adoption_date * dev.persona_config.copilot_multiplier
     else 1)

/-! ## Mock data simulator: daily Copilot usage records -/

/-- The `random` draws consumed by one call of `generate_copilot_metrics_for_day`,
in source order; `lang_model_choice i` is the `random.choice(MODELS)` drawn for
the developer's `i`-th language. -/
structure CopilotRand where
  adoption_draw : Rat
  weekend_draw : Rat
  interactions_draw : Int
  code_gen_draw : Int
  acceptance_draw : Rat
  loc_per_gen_draw : Int
  loc_added_jitter : Rat
  agent_draw : Rat
  chat_draw : Rat
  lang_model_choice : Nat → String
  top_model_choice : String

structure IdeTotals where
  ide : String
  user_initiated_interaction_count : Int
  code_generation_activity_count : Int
  code_acceptance_activity_count : Int
  loc_suggested_to_add_sum : Int
  loc_suggested_to_delete_sum : Int
  loc_added_sum : Int
  loc_deleted_sum : Int

structure FeatureTotals where
  feature : String
  user_initiated_interaction_count : Int
  code_generation_activity_count : Int
  code_acceptance_activity_count : Int
  loc_suggested_to_add_sum : Int
  loc_suggested_to_delete_sum : Int
  loc_added_sum : Int
  loc_deleted_sum : Int

structure LangModelTotals where
  language : String
  model : String
  code_generation_activity_count : Int
  code_acceptance_activity_count : Int
  loc_suggested_to_add_sum : Int
  loc_suggested_to_delete_sum : Int
  loc_added_sum : Int
  loc_deleted_sum : Int

structure LangFeatureTotals where
  language : String
  feature : String
  code_generation_activity_count : Int
  code_acceptance_activity_count : Int
  loc_suggested_to_add_sum : Int
  loc_suggested_to_delete_sum : Int
  loc_added_sum : Int
  loc_deleted_sum : Int

/-- The assistant-usage record dict built by `generate_copilot_metrics_for_day`. -/
structure CopilotRecord where
  day : Int
  report_start_day : Int
  report_end_day : Int
  user_id : Int
  user_login : String
  organization_slug : String
  slug_type : String
  last_updated_at : String
  utc_offset : String
  user_initiated_interaction_count : Int
  code_generation_activity_count : Int
  code_acceptance_activity_count : Int
  used_agent : Bool
  used_chat : Bool
  loc_suggested_to_add_sum : Int
  loc_suggested_to_delete_sum : Int
  loc_added_sum : Int
  loc_deleted_sum : Int
  totals_by_ide : List IdeTotals
  totals_by_feature : List FeatureTotals
  totals_by_language_model : List LangModelTotals
  totals_by_language_feature : List LangFeatureTotals
  top_model : String
  top_language : String
  top_feature : String
  unique_hash : String

/-- Python `str(bool)`. -/
def pyBoolStr (b : Bool) : String := if b then "True" else "False"

/-- Lookup (`dict.get`) over the Copilot record's stringified scalar fields (the
breakdown-array fields are never hash keys and are omitted from the lookup). -/
def CopilotRecord.fieldGet (r : CopilotRecord) : String → Option String
  | "day" => some (formatDay r.day)
  | "report_start_day" => some (formatDay r.report_start_day)
  | "report_end_day" => some (formatDay r.report_end_day)
  | "user_id" => some (toString r.user_id)
  | "user_login" => some r.user_login
  | "organization_slug" => some r.organization_slug
  | "slug_type" => some r.slug_type
  | "last_updated_at" => some r.last_updated_at
  | "utc_offset" => some r.utc_offset
  | "user_initiated_interaction_count" => some (toString r.user_initiated_interaction_count)
  | "code_generation_activity_count" => some (toString r.code_generation_activity_count)
  | "code_acceptance_activity_count" => some (toString r.code_acceptance_activity_count)
  | "used_agent" => some (pyBoolStr r.used_agent)
  | "used_chat" => some (pyBoolStr r.used_chat)
  | "loc_suggested_to_add_sum" => some (toString r.loc_suggested_to_add_sum)
  | "loc_suggested_to_delete_sum" => some (toString r.loc_suggested_to_delete_sum)
  | "loc_added_sum" => some (toString r.loc_added_sum)
  | "loc_deleted_sum" => some (toString r.loc_deleted_sum)
  | "top_model" => some r.top_model
  | "top_language" => some r.top_language
  | "top_feature" => some r.top_feature
  | "unique_hash" => some r.unique_hash
  | _ => none

def copilot_key_properties : List String := ["organization_slug", "user_login", "day"]

/-- Python's substring test `needle in hay` on strings. -/
def pyStrContains (needle hay : String) : Bool := (hay.splitOn needle).length > 1

/-- Usage ramp `min(1.0, 0.3 + (days_since_adoption / 28) * 0.7)`. -/
def usage_multiplier (days_since_adoption : Int) : Rat :=
  min 1 (3/10 + ((days_since_adoption : Rat) / 28) * (7/10))

/-- The effective acceptance rate of `generate_copilot_metrics_for_day`:
the persona-range draw, plus the +2% bonuses after 14 and 28 days, capped at
the absolute ceiling 0.45. -/
def effective_acceptance_rate (r : CopilotRand) (p : Persona) (days_since_adoption : Int) : Rat :=
  let rate0 := r.acceptance_draw
  let rate1 := if days_since_adoption > 14 then rate0 + 2/100 else rate0
  let rate2 := if days_since_adoption > 28 then rate1 + 2/100 else rate1
  min rate2 (45/100)

/-- Function `generate_copilot_metrics_for_day(developer, date, copilot_adoption_date)`. -/
def generate_copilot_metrics_for_day (dev : Developer) (date copilot_adoption_date : Int)
    (r : CopilotRand) (ts : String) : Option CopilotRecord :=
  let persona := dev.persona_config
  if date < copilot_adoption_date then none
  else if r.adoption_draw > persona.copilot_adoption_rate then none
  else if is_workday date = false ∧ r.weekend_draw > 1/10 then none
  else
    let days_since_adoption := date - copilot_adoption_date
    let um := usage_multiplier days_since_adoption
    let interactions := truncInt ((r.interactions_draw : Rat) * um)
    let code_gen := truncInt ((r.code_gen_draw : Rat) * um)
    let acceptance_rate := effective_acceptance_rate r persona days_since_adoption
    let code_acceptance := truncInt ((code_gen : Rat) * acceptance_rate)
    let loc_suggested := code_gen * r.loc_per_gen_draw
    let loc_added := truncInt ((loc_suggested : Rat) * acceptance_rate * r.loc_added_jitter)
    let used_agent :=
      if "chat_panel_agent_mode" ∈ persona.features then decide (r.agent_draw < 3/10) else false
    let used_chat :=
      if "chat_panel_ask_mode" ∈ persona.features then decide (r.chat_draw < 6/10) else false
    let totals_by_ide : List IdeTotals :=
      [{ ide := dev.primary_ide.name,
         user_initiated_interaction_count := interactions,
         code_generation_activity_count := code_gen,
         code_acceptance_activity_count := code_acceptance,
         loc_suggested_to_add_sum := loc_suggested,
         loc_suggested_to_delete_sum := truncInt ((loc_suggested : Rat) * (1/10)),
         loc_added_sum := loc_added,
         loc_deleted_sum := truncInt ((loc_added : Rat) * (1/10)) }]
    let available_features := persona.features
    let totals_by_feature : List FeatureTotals :=
      available_features.map (fun feature =>
        let feature_share : Rat :=
          if feature = "code_completion" then 1/2 else 1 / (available_features.length : Rat)
        { feature := feature,
          user_initiated_interaction_count := truncInt ((interactions : Rat) * feature_share),
          code_generation_activity_count :=
            if pyStrContains "code" feature then truncInt ((code_gen : Rat) * feature_share) else 0,
          code_acceptance_activity_count :=
            if pyStrContains "code" feature then
              truncInt ((code_acceptance : Rat) * feature_share) else 0,
          loc_suggested_to_add_sum :=
            if pyStrContains "code" feature then
              truncInt ((loc_suggested : Rat) * feature_share) else 0,
          loc_suggested_to_delete_sum :=
            if pyStrContains "code" feature then
              truncInt ((loc_suggested : Rat) * (1/10) * feature_share) else 0,
          loc_added_sum :=
            if pyStrContains "code" feature then truncInt ((loc_added : Rat) * feature_share) else 0,
          loc_deleted_sum :=
            if pyStrContains "code" feature then
              truncInt ((loc_added : Rat) * (1/10) * feature_share) else 0 })
    let totals_by_language_model : List LangModelTotals :=
      dev.languages.enum.map (fun il =>
        let lang_share : Rat := 1 / (dev.languages.length : Rat)
        { language := il.2, model := r.lang_model_choice il.1,
          code_generation_activity_count := truncInt ((code_gen : Rat) * lang_share),
          code_acceptance_activity_count := truncInt ((code_acceptance : Rat) * lang_share),
          loc_suggested_to_add_sum := truncInt ((loc_suggested : Rat) * lang_share),
          loc_suggested_to_delete_sum := truncInt ((loc_suggested : Rat) * (1/10) * lang_share),
          loc_added_sum := truncInt ((loc_added : Rat) * lang_share),
          loc_deleted_sum := truncInt ((loc_added : Rat) * (1/10) * lang_share) })
    let totals_by_language_feature : List LangFeatureTotals :=
      (dev.languages.map (fun lang =>
        (available_features.take 2).map (fun feature =>
          let share : Rat := 1 / ((dev.languages.length : Rat) * 2)
          { language := lang, feature := feature,
            code_generation_activity_count := truncInt ((code_gen : Rat) * share),
            code_acceptance_activity_count := truncInt ((code_acceptance : Rat) * share),
            loc_suggested_to_add_sum := truncInt ((loc_suggested : Rat) * share),
            loc_suggested_to_delete_sum := truncInt ((loc_suggested : Rat) * (1/10) * share),
            loc_added_sum := truncInt ((loc_added : Rat) * share),
            loc_deleted_sum := truncInt ((loc_added : Rat) * (1/10) * share)
            : LangFeatureTotals }))).flatten
    let rec0 : CopilotRecord :=
      { day := date, report_start_day := date, report_end_day := date,
        user_id := dev.user_id, user_login := dev.user_login,
        organization_slug := ORGANIZATION_SLUG, slug_type := SLUG_TYPE,
        last_updated_at := ts, utc_offset := "+00:00",
        user_initiated_interaction_count := interactions,
        code_generation_activity_count := code_gen,
        code_acceptance_activity_count := code_acceptance,
        used_agent := used_agent, used_chat := used_chat,
        loc_suggested_to_add_sum := loc_suggested,
        loc_suggested_to_delete_sum := truncInt ((loc_suggested : Rat) * (1/10)),
        loc_added_sum := loc_added,
        loc_deleted_sum := truncInt ((loc_added : Rat) * (1/10)),
        totals_by_ide := totals_by_ide,
        totals_by_feature := totals_by_feature,
        totals_by_language_model := totals_by_language_model,
        totals_by_language_feature := totals_by_language_feature,
        -- `developer["languages"][0]`; teams always carry a non-empty list.
        top_model := r.top_model_choice, top_language := dev.languages.headD "",
        top_feature := "code_completion", unique_hash := "" }
    some { rec0 with
            unique_hash := generate_unique_hash rec0.fieldGet copilot_key_properties }

/-! ## Activity fetcher (`fetch_developer_activity.py`) -/

/-- Result dict of `get_user_commits`. -/
structure CommitMetrics where
  commit_count : Int
  repos_contributed : Int
  repos_list : List String

/-- Result dict of `get_user_pull_requests`. -/
structure PRMetrics where
  prs_opened : Int
  prs_merged : Int
  prs_reviewed : Int
  pr_comments : Int
  prs_closed : Int

/-- Result dict of `get_user_issues`. -/
structure IssueMetrics where
  issues_opened : Int
  issues_closed : Int
  issue_comments : Int

/-- The per-member record dict built inside
`fetch_developer_activity_for_members` (day fields as day numbers). -/
structure ActivityRecord where
  user_login : String
  organization_slug : String
  slug_type : String
  day : Int
  report_start_day : Int
  report_end_day : Int
  period_days : Int
  commit_count : Int
  repos_contributed : Int
  prs_opened : Int
  prs_merged : Int
  prs_reviewed : Int
  pr_comments : Int
  prs_closed : Int
  issues_opened : Int
  issues_closed : Int
  issue_comments : Int
  total_contributions : Int
  code_review_activity : Int
  commits_per_day : Rat
  prs_per_day : Rat
  reviews_per_day : Rat
  last_updated_at : String
  utc_offset : String
  unique_hash : String

/-- Lookup (`dict.get`) over the fetcher record's stringified fields. -/
def ActivityRecord.fieldGet (r : ActivityRecord) : String → Option String
  | "user_login" => some r.user_login
  | "organization_slug" => some r.organization_slug
  | "slug_type" => some r.slug_type
  | "day" => some (formatDay r.day)
  | "report_start_day" => some (formatDay r.report_start_day)
  | "report_end_day" => some (formatDay r.report_end_day)
  | "period_days" => some (toString r.period_days)
  | "commit_count" => some (toString r.commit_count)
  | "repos_contributed" => some (toString r.repos_contributed)
  | "prs_opened" => some (toString r.prs_opened)
  | "prs_merged" => some (toString r.prs_merged)
  | "prs_reviewed" => some (toString r.prs_reviewed)
  | "pr_comments" => some (toString r.pr_comments)
  | "prs_closed" => some (toString r.prs_closed)
  | "issues_opened" => some (toString r.issues_opened)
  | "issues_closed" => some (toString r.issues_closed)
  | "issue_comments" => some (toString r.issue_comments)
  | "total_contributions" => some (toString r.total_contributions)
  | "code_review_activity" => some (toString r.code_review_activity)
  | "commits_per_day" => some (ratStr r.commits_per_day)
  | "prs_per_day" => some (ratStr r.prs_per_day)
  | "reviews_per_day" => some (ratStr r.reviews_per_day)
  | "last_updated_at" => some r.last_updated_at
  | "utc_offset" => some r.utc_offset
  | "unique_hash" => some r.unique_hash
  | _ => none

def activity_key_properties : List String :=
  ["organization_slug", "user_login", "report_start_day", "report_end_day"]

/-- Lines 320-377 of `fetch_developer_activity.py`: assemble one member's
`ActivityRecord` from the three metric dicts; `now` is `datetime.now()`'s day,
so `since_date = now - days_back` and the window is `[now - days_back, now]`. -/
def build_activity_record (org slugType member : String) (now days_back : Int)
    (cm : CommitMetrics) (pm : PRMetrics) (im : IssueMetrics) (ts utc : String) : ActivityRecord :=
  let until_day := now
  let since_day := now - days_back
  let total_contributions :=
    cm.commit_count + pm.prs_opened + pm.prs_merged + pm.prs_reviewed + im.issues_opened
  let code_review_activity := pm.prs_reviewed + pm.pr_comments
  let rec0 : ActivityRecord :=
    { user_login := member, organization_slug := org, slug_type := slugType,
      day := until_day, report_start_day := since_day, report_end_day := until_day,
      period_days := days_back,
      commit_count := cm.commit_count, repos_contributed := cm.repos_contributed,
      prs_opened := pm.prs_opened, prs_merged := pm.prs_merged,
      prs_reviewed := pm.prs_reviewed, pr_comments := pm.pr_comments,
      prs_closed := pm.prs_closed,
      issues_opened := im.issues_opened, issues_closed := im.issues_closed,
      issue_comments := im.issue_comments,
      total_contributions := total_contributions,
      code_review_activity := code_review_activity,
      commits_per_day := round2 ((cm.commit_count : Rat) / (days_back : Rat)),
      prs_per_day := round2 ((pm.prs_opened : Rat) / (days_back : Rat)),
      reviews_per_day := round2 ((pm.prs_reviewed : Rat) / (days_back : Rat)),
      last_updated_at := ts, utc_offset := utc, unique_hash := "" }
  { rec0 with unique_hash := generate_unique_hash rec0.fieldGet activity_key_properties }

/-- One page response of a paged listing endpoint: the parsed JSON body on
HTTP 200, or `apiError` for a non-200 status / raised transport error. -/
inductive RestResp (α : Type) where
  | ok (page : List α)
  | apiError

/-- Model of `_make_rest_request` with `error_return_value = []`: an error response is
replaced by the empty list. -/
def rest_result {α : Type} : RestResp α → List α
  | .ok l => l
  | .apiError => []

/-- Extraction `m.get("login")` filtered by Python truthiness
(`[m.get("login") for m in page_members if m.get("login")]`): a member object
is modelled by its optional `login` field. -/
def login_value : Option String → Option String
  | some s => if s = "" then none else some s
  | none => none

/-- Extraction `r.get("name")` filtered by Python truthiness (repository listing). -/
def name_value : Option String → Option String
  | some s => if s = "" then none else some s
  | none => none

/-- The `while True` pagination loop of `get_organization_members`: the `n`-th
element of `src` is the response for `page = n + 1` (an exhausted listing
returns `[]`, i.e. past the end of `src`).  Returns the accumulated logins and
the number of page requests issued. -/
def members_pages_loop (per_page : Nat) : List (RestResp (Option String)) → List String × Nat
  | [] => ([], 1)
  | resp :: rest =>
      let page := rest_result resp
      if page.isEmpty then ([], 1)
      else
        let logins := page.filterMap login_value
        if page.length < per_page then (logins, 1)
        else
          let tail := members_pages_loop per_page rest
          (logins ++ tail.1, tail.2 + 1)

/-- Enumerator `get_organization_members` (page size 100). -/
def get_organization_members (src : List (RestResp (Option String))) : List String × Nat :=
  members_pages_loop 100 src

/-- The identical pagination loop of `get_organization_repos`. -/
def repos_pages_loop (per_page : Nat) : List (RestResp (Option String)) → List String × Nat
  | [] => ([], 1)
  | resp :: rest =>
      let page := rest_result resp
      if page.isEmpty then ([], 1)
      else
        let names := page.filterMap name_value
        if page.length < per_page then (names, 1)
        else
          let tail := repos_pages_loop per_page rest
          (names ++ tail.1, tail.2 + 1)

/-- Enumerator `get_organization_repos` (page size 100). -/
def get_organization_repos (src : List (RestResp (Option String))) : List String × Nat :=
  repos_pages_loop 100 src

/-- The per-member `for`/`try`/`except` loop of
`fetch_developer_activity_for_members`: `api m` models the fallible prefix of
the `try` block (the three metric queries for member `m`); an `error` outcome
is the caught exception — the member is skipped with `continue`. -/
def fetch_members_loop (org slugType : String)
    (api : String → Except String (CommitMetrics × PRMetrics × IssueMetrics))
    (now days_back : Int) (ts utc : String) : List String → List ActivityRecord
  | [] => []
  | member :: rest =>
      match api member with
      | .ok t =>
          build_activity_record org slugType member now days_back t.1 t.2.1 t.2.2 ts utc ::
            fetch_members_loop org slugType api now days_back ts utc rest
      | .error _ => fetch_members_loop org slugType api now days_back ts utc rest

/-- Entry point `fetch_developer_activity_for_members(members, days_back)` with the member
list supplied by the caller.  The optional JSON dump (`dict_save_to_json_file`,
imported from the sibling `main` module, which is not part of the modelled
sources) is, per the specification, a pure side effect on the local filesystem
and is not modelled; it does not alter the returned list. -/
def fetch_developer_activity_for_members (org slugType : String) (members : List String)
    (api : String → Except String (CommitMetrics × PRMetrics × IssueMetrics))
    (now days_back : Int) (ts utc : String) : List ActivityRecord :=
  if members.isEmpty then []
  else fetch_members_loop org slugType api now days_back ts utc members

/-! ## Concrete sample data (used by witnesses and counterexamples) -/

def devA : Developer :=
  { user_login := "alex-chen", user_id := 1000000, team := "platform",
    repos := ["api-gateway", "auth-service", "config-manager"],
    languages := ["go", "python"], persona := "regular", persona_config := regular,
    primary_ide := { name := "vscode", weight := 60/100, plugin_version := "1.234.0" },
    seniority := "senior" }

def randA : ActivityRand :=
  { weekend_draw := 1/2, vacation_draw := 1/2, base_commits_draw := 3, base_prs_draw := 1,
    base_reviews_draw := 2, commit_jitter := 1, pr_jitter := 1, review_jitter := 1,
    merged_frac := 7/10, comment_mult := 2, issues_opened_draw := 1, issues_closed_draw := 1,
    issue_comments_draw := 0, repos_draw := 2 }

/-- Draws that pass both the weekend gate (`weekend_draw ≤ 0.15`) and the
vacation gate (`vacation_draw ≥ 0.05`) of the activity generator on any date. -/
def raQuiet : ActivityRand :=
  { weekend_draw := 0, vacation_draw := 1/2, base_commits_draw := 0, base_prs_draw := 0,
    base_reviews_draw := 0, commit_jitter := 0, pr_jitter := 0, review_jitter := 0,
    merged_frac := 0, comment_mult := 0, issues_opened_draw := 0, issues_closed_draw := 0,
    issue_comments_draw := 0, repos_draw := 0 }

def crandA : CopilotRand :=
  { adoption_draw := 1/2, weekend_draw := 1/2, interactions_draw := 30, code_gen_draw := 40,
    acceptance_draw := 3/10, loc_per_gen_draw := 5, loc_added_jitter := 9/10,
    agent_draw := 1/2, chat_draw := 1/2, lang_model_choice := fun _ => "gpt-4o",
    top_model_choice := "gpt-4o" }

def cmA : CommitMetrics := { commit_count := 10, repos_contributed := 2, repos_list := ["a", "b"] }

def pmA : PRMetrics :=
  { prs_opened := 3, prs_merged := 2, prs_reviewed := 4, pr_comments := 5, prs_closed := 2 }

def imA : IssueMetrics := { issues_opened := 1, issues_closed := 1, issue_comments := 2 }

/-- A record dict (as a stringified-field lookup) with a commit count of 10. -/
def dataA : String → Option String := fun k =>
  if k = "organization_slug" then some "acme-corp"
  else if k = "user_login" then some "alex-chen"
  else if k = "report_start_day" then some "2025-01-01"
  else if k = "report_end_day" then some "2025-01-29"
  else if k = "commit_count" then some "10"
  else none

/-- Same as `dataA` but with the non-key field `commit_count` changed. -/
def dataB : String → Option String := fun k =>
  if k = "commit_count" then some "99" else dataA k

def fullPagesW : List (List (Option String)) :=
  [List.replicate 100 (some "a"), List.replicate 100 (some "b")]

def lastPageW : List (Option String) := List.replicate 37 (some "c")

/-! ## Helper lemmas -/

theorem generate_unique_hash_congr (d1 d2 : String → Option String) (keys : List String)
    (h : ∀ k ∈ keys, (d1 k).getD "" = (d2 k).getD "") :
    generate_unique_hash d1 keys = generate_unique_hash d2 keys := by
  unfold generate_unique_hash
  have hmap : keys.map (fun k => (d1 k).getD "") = keys.map (fun k => (d2 k).getD "") :=
    List.map_congr_left (fun k hk => h k hk)
  rw [hmap]

theorem truncInt_of_nonneg {x : Rat} (hx : 0 ≤ x) : truncInt x = ⌊x⌋ := if_pos hx

theorem truncInt_nonneg {x : Rat} (hx : 0 ≤ x) : 0 ≤ truncInt x := by
  rw [truncInt_of_nonneg hx]
  exact Int.floor_nonneg.mpr hx

theorem truncInt_le_intCast {x : Rat} {n : Int} (hx : 0 ≤ x) (hxn : x ≤ (n : Rat)) :
    truncInt x ≤ n := by
  rw [truncInt_of_nonneg hx]
  have h := Int.floor_mono hxn
  simpa using h

theorem effective_acceptance_rate_le_cap (r : CopilotRand) (p : Persona) (d : Int) :
    effective_acceptance_rate r p d ≤ 45/100 := by
  unfold effective_acceptance_rate
  exact min_le_right _ _

theorem effective_acceptance_rate_nonneg (r : CopilotRand) (p : Persona) (d : Int)
    (h : 0 ≤ r.acceptance_draw) : 0 ≤ effective_acceptance_rate r p d := by
  unfold effective_acceptance_rate
  refine le_min ?_ (by norm_num)
  split_ifs <;> linarith

theorem usage_multiplier_nonneg {d : Int} (hd : 0 ≤ d) : 0 ≤ usage_multiplier d := by
  unfold usage_multiplier
  refine le_min (by norm_num) ?_
  have hdq : (0 : Rat) ≤ (d : Rat) := by exact_mod_cast hd
  have h1 : (0 : Rat) ≤ ((d : Rat) / 28) * (7/10) :=
    mul_nonneg (div_nonneg hdq (by norm_num)) (by norm_num)
  linarith

theorem get_activity_modifier_shift (a k : Int) (hk : 0 ≤ k) :
    get_activity_modifier (a + k) a =
      (if k < 7 then (98/100 : Rat)
       else if k < 14 then 102/100
       else if k < 21 then 108/100
       else if k < 28 then 115/100
       else if k < 35 then 120/100
       else if k < 42 then 125/100
       else if k < 56 then 128/100
       else 130/100) := by
  unfold get_activity_modifier
  rw [if_neg (by omega)]
  simp only [add_sub_cancel_left]

theorem members_pages_loop_cons_full (p : List (Option String)) (hp : p.length = 100)
    (rest : List (RestResp (Option String))) :
    members_pages_loop 100 (RestResp.ok p :: rest) =
      (p.filterMap login_value ++ (members_pages_loop 100 rest).1,
       (members_pages_loop 100 rest).2 + 1) := by
  have hne : p ≠ [] := by intro e; rw [e] at hp; simp at hp
  simp only [members_pages_loop, rest_result]
  rw [if_neg (by simp [hne]), if_neg (by omega)]

theorem members_pages_loop_short (p : List (Option String)) (h0 : p ≠ []) (h1 : p.length < 100)
    (rest : List (RestResp (Option String))) :
    members_pages_loop 100 (RestResp.ok p :: rest) = (p.filterMap login_value, 1) := by
  simp only [members_pages_loop, rest_result]
  rw [if_neg (by simp [h0]), if_pos h1]

theorem members_pages_loop_err (rest : List (RestResp (Option String))) :
    members_pages_loop 100 (RestResp.apiError :: rest) = ([], 1) := by
  simp [members_pages_loop, rest_result]

theorem repos_pages_loop_cons_full (p : List (Option String)) (hp : p.length = 100)
    (rest : List (RestResp (Option String))) :
    repos_pages_loop 100 (RestResp.ok p :: rest) =
      (p.filterMap name_value ++ (repos_pages_loop 100 rest).1,
       (repos_pages_loop 100 rest).2 + 1) := by
  have hne : p ≠ [] := by intro e; rw [e] at hp; simp at hp
  simp only [repos_pages_loop, rest_result]
  rw [if_neg (by simp [hne]), if_neg (by omega)]

theorem repos_pages_loop_err (rest : List (RestResp (Option String))) :
    repos_pages_loop 100 (RestResp.apiError :: rest) = ([], 1) := by
  simp [repos_pages_loop, rest_result]

theorem sum_map_length_full (full : List (List (Option String)))
    (hfull : ∀ p ∈ full, p.length = 100) :
    (full.map List.length).sum = 100 * full.length := by
  induction full with
  | nil => simp
  | cons p rest ih =>
      simp only [List.map_cons, List.sum_cons, List.length_cons]
      rw [hfull p (List.mem_cons_self _ _), ih (fun q hq => hfull q (List.mem_cons_of_mem _ hq))]
      ring

theorem fetch_members_loop_eq (org slugType : String)
    (api : String → Except String (CommitMetrics × PRMetrics × IssueMetrics))
    (now days_back : Int) (ts utc : String) (members : List String) :
    fetch_members_loop org slugType api now days_back ts utc members =
      members.filterMap (fun m =>
        match api m with
        | .ok t => some (build_activity_record org slugType m now days_back t.1 t.2.1 t.2.2 ts utc)
        | .error _ => none) := by
  induction members with
  | nil => rfl
  | cons m rest ih =>
      simp only [fetch_members_loop, List.filterMap_cons]
      cases api m with
      | ok t => simp [ih]
      | error e => simp [ih]

/-! ## Claims -/

/-- C1, counterexample to the claim as stated: at `days_since_adoption = 0`
(the adoption day itself) `get_activity_modifier` returns `0.98`, not the
claimed `1.0` — the week-1 branch `days_since_adoption < 7` already applies. -/
theorem c1_counterexample :
    get_activity_modifier 0 0 = 98/100 ∧ (98/100 : Rat) ≠ 1 := by
  constructor
  · rfl
  · norm_num

set_option maxHeartbeats 1000000 in
/-- C1 (amended): `get_activity_modifier` is piecewise-constant on the
documented week intervals — `0.98` on days `0..6` (so `0.98`, not `1.0`, on
day 0), `1.02` on `7..13`, `1.08` on `14..20`, `1.15` on `21..27`, `1.20` on
`28..34`, `1.25` on `35..41`, `1.28` on `42..55`, and the ceiling `1.30` for
every day `≥ 56` — it is non-decreasing from day 7 onward, and for every date
strictly before the adoption date the multiplier is `1.0`. -/
theorem c1_ramp_amended :
    (∀ d a : Int, d < a → get_activity_modifier d a = 1) ∧
    (∀ a k k' : Int, 7 ≤ k → k ≤ k' →
      get_activity_modifier (a + k) a ≤ get_activity_modifier (a + k') a) ∧
    (∀ a k : Int, 0 ≤ k → k < 7 → get_activity_modifier (a + k) a = 98/100) ∧
    (∀ a k : Int, 7 ≤ k → k < 14 → get_activity_modifier (a + k) a = 102/100) ∧
    (∀ a k : Int, 14 ≤ k → k < 21 → get_activity_modifier (a + k) a = 108/100) ∧
    (∀ a k : Int, 21 ≤ k → k < 28 → get_activity_modifier (a + k) a = 115/100) ∧
    (∀ a k : Int, 28 ≤ k → k < 35 → get_activity_modifier (a + k) a = 120/100) ∧
    (∀ a k : Int, 35 ≤ k → k < 42 → get_activity_modifier (a + k) a = 125/100) ∧
    (∀ a k : Int, 42 ≤ k → k < 56 → get_activity_modifier (a + k) a = 128/100) ∧
    (∀ a k : Int, 56 ≤ k → get_activity_modifier (a + k) a = 130/100) := by
  refine ⟨?_, ?_, ?_, ?_, ?_, ?_, ?_, ?_, ?_, ?_⟩
  · intro d a h
    unfold get_activity_modifier
    rw [if_pos h]
  · intro a k k' h1 h2
    rw [get_activity_modifier_shift a k (by omega), get_activity_modifier_shift a k' (by omega)]
    split_ifs <;> first | omega | norm_num
  · intro a k h1 h2
    rw [get_activity_modifier_shift a k (by omega)]
    split_ifs <;> first | rfl | omega
  · intro a k h1 h2
    rw [get_activity_modifier_shift a k (by omega)]
    split_ifs <;> first | rfl | omega
  · intro a k h1 h2
    rw [get_activity_modifier_shift a k (by omega)]
    split_ifs <;> first | rfl | omega
  · intro a k h1 h2
    rw [get_activity_modifier_shift a k (by omega)]
    split_ifs <;> first | rfl | omega
  · intro a k h1 h2
    rw [get_activity_modifier_shift a k (by omega)]
    split_ifs <;> first | rfl | omega
  · intro a k h1 h2
    rw [get_activity_modifier_shift a k (by omega)]
    split_ifs <;> first | rfl | omega
  · intro a k h1 h2
    rw [get_activity_modifier_shift a k (by omega)]
    split_ifs <;> first | rfl | omega
  · intro a k h1
    rw [get_activity_modifier_shift a k (by omega)]
    split_ifs <;> first | rfl | omega

/-- C1 witness: the amended ramp theorem applied at concrete days — the
day-56 boundary, monotonicity from day 7 to day 70, and the ceiling at
`days_since_adoption = 70`. -/
theorem c1_ramp_amended_witness :
    (7 : Int) ≤ 7 ∧ (7 : Int) ≤ 70 ∧ (56 : Int) ≤ 70 ∧
    get_activity_modifier (0 + 7) 0 ≤ get_activity_modifier (0 + 70) 0 ∧
    get_activity_modifier (0 + 70) 0 = 130/100 := by
  refine ⟨by norm_num, by norm_num, by norm_num, ?_, ?_⟩
  · exact c1_ramp_amended.2.1 0 7 70 (by norm_num) (by norm_num)
  · exact c1_ramp_amended.2.2.2.2.2.2.2.2.2 0 70 (by norm_num)

/-- C2, counterexample to the claim as stated: a concrete mock-pipeline record
(`generate_developer_activity_for_day`) has `report_start_day = report_end_day`
(difference 0 days) but `period_days = 1`. -/
theorem c2_counterexample :
    (generate_developer_activity_for_day devA 0 5 randA "ts").map
      (fun u => (u.report_end_day - u.report_start_day, u.period_days)) = some (0, 1) ∧
    (0 : Int) ≠ 1 := by
  constructor
  · unfold generate_developer_activity_for_day generate_developer_activity_core
    rw [if_neg, if_neg]
    · rfl
    · norm_num [randA]
    · intro hc
      have hw : is_workday 0 = true := by norm_num [is_workday, weekday]
      rw [hw] at hc
      exact absurd hc.1 (by norm_num)
  · norm_num

/-- C2 (amended): in the fetcher pipeline `report_end_day - report_start_day`
in days equals `period_days` (both are `days_back`); in the mock pipeline every
emitted record is a one-day window with `report_start_day = report_end_day`
and `period_days = 1`, so the day difference is `period_days - 1`, not
`period_days`. -/
theorem c2_period_days_amended :
    (∀ org slugType member now days_back cm pm im ts utc,
      (build_activity_record org slugType member now days_back cm pm im ts utc).report_end_day -
        (build_activity_record org slugType member now days_back cm pm im ts utc).report_start_day =
        (build_activity_record org slugType member now days_back cm pm im ts utc).period_days) ∧
    (∀ dev date adoption r ts,
      generate_developer_activity_for_day dev date adoption r ts = none ∨
      ∃ u, generate_developer_activity_for_day dev date adoption r ts = some u ∧
        u.report_start_day = u.report_end_day ∧ u.period_days = 1) := by
  constructor
  · intro org slugType member now days_back cm pm im ts utc
    show now - (now - days_back) = days_back
    omega
  · intro dev date adoption r ts
    unfold generate_developer_activity_for_day generate_developer_activity_core
    split_ifs <;> first | exact Or.inl rfl | exact Or.inr ⟨_, rfl, rfl, rfl⟩

/-- C3: `generate_unique_hash` is a deterministic pure function of the values
of the listed key properties — recomputing it from identical inputs yields the
identical digest, two record dicts agreeing on every key property (after the
missing/`None` ↦ `""` serialization) hash identically (so changing any
non-key field leaves the hash unchanged), and a `None`/missing key property
hashes the same as one explicitly set to the empty string. -/
theorem c3_unique_hash_key_dependence :
    (∀ (data : String → Option String) keys,
      generate_unique_hash data keys = generate_unique_hash data keys) ∧
    (∀ (d1 d2 : String → Option String) keys, (∀ k ∈ keys, d1 k = d2 k) →
      generate_unique_hash d1 keys = generate_unique_hash d2 keys) ∧
    (∀ (d : String → Option String) keys k0, d k0 = none →
      generate_unique_hash d keys =
        generate_unique_hash (fun k => if k = k0 then some "" else d k) keys) := by
  refine ⟨fun _ _ => rfl, ?_, ?_⟩
  · intro d1 d2 keys h
    exact generate_unique_hash_congr d1 d2 keys (fun k hk => by rw [h k hk])
  · intro d keys k0 hk0
    apply generate_unique_hash_congr
    intro k _
    by_cases hkk : k = k0
    · subst hkk
      rw [hk0, if_pos rfl]
      rfl
    · rw [if_neg hkk]

/-- C3 witness: two concrete record dicts that agree on the four natural-key
properties but differ on the non-key field `commit_count` receive the same
hash. -/
theorem c3_unique_hash_witness :
    dataA "organization_slug" = dataB "organization_slug" ∧
    dataA "user_login" = dataB "user_login" ∧
    dataA "report_start_day" = dataB "report_start_day" ∧
    dataA "report_end_day" = dataB "report_end_day" ∧
    dataA "commit_count" ≠ dataB "commit_count" ∧
    generate_unique_hash dataA activity_key_properties =
      generate_unique_hash dataB activity_key_properties := by
  refine ⟨by decide, by decide, by decide, by decide, by decide, ?_⟩
  exact c3_unique_hash_key_dependence.2.1 dataA dataB activity_key_properties (by decide)

/-- C4: in both pipelines, every produced record satisfies
`total_contributions = commit_count + prs_opened + prs_merged + prs_reviewed +
issues_opened` and `code_review_activity = prs_reviewed + pr_comments`,
exactly. -/
theorem c4_derived_totals :
    (∀ org slugType member now days_back cm pm im ts utc,
      (build_activity_record org slugType member now days_back cm pm im ts utc).total_contributions
          = (build_activity_record org slugType member now days_back cm pm im ts utc).commit_count
          + (build_activity_record org slugType member now days_back cm pm im ts utc).prs_opened
          + (build_activity_record org slugType member now days_back cm pm im ts utc).prs_merged
          + (build_activity_record org slugType member now days_back cm pm im ts utc).prs_reviewed
          + (build_activity_record org slugType member now days_back cm pm im ts utc).issues_opened
        ∧ (build_activity_record org slugType member now days_back cm pm im ts
            utc).code_review_activity
          = (build_activity_record org slugType member now days_back cm pm im ts utc).prs_reviewed
          + (build_activity_record org slugType member now days_back cm pm im ts utc).pr_comments) ∧
    (∀ dev date adoption r ts,
      generate_developer_activity_for_day dev date adoption r ts = none ∨
      ∃ u, generate_developer_activity_for_day dev date adoption r ts = some u ∧
        u.total_contributions
          = u.commit_count + u.prs_opened + u.prs_merged + u.prs_reviewed + u.issues_opened ∧
        u.code_review_activity = u.prs_reviewed + u.pr_comments) := by
  constructor
  · intro org slugType member now days_back cm pm im ts utc
    exact ⟨rfl, rfl⟩
  · intro dev date adoption r ts
    unfold generate_developer_activity_for_day generate_developer_activity_core
    split_ifs <;> first | exact Or.inl rfl | exact Or.inr ⟨_, rfl, rfl, rfl⟩

theorem members_pages_loop_full_then_short (last : List (Option String))
    (h0 : last ≠ []) (h1 : last.length < 100) :
    ∀ full : List (List (Option String)), (∀ p ∈ full, p.length = 100) →
      members_pages_loop 100 ((full ++ [last]).map RestResp.ok) =
        (((full ++ [last]).map (fun p => p.filterMap login_value)).flatten, full.length + 1) := by
  intro full
  induction full with
  | nil =>
      intro _
      simp only [List.nil_append, List.map_cons, List.map_nil]
      rw [members_pages_loop_short last h0 h1]
      simp
  | cons p rest ih =>
      intro hfull
      simp only [List.cons_append, List.map_cons]
      rw [members_pages_loop_cons_full p (hfull p (List.mem_cons_self _ _))]
      rw [ih (fun q hq => hfull q (List.mem_cons_of_mem _ hq))]
      simp

theorem members_pages_loop_error_after (rest : List (RestResp (Option String))) :
    ∀ full : List (List (Option String)), (∀ p ∈ full, p.length = 100) →
      members_pages_loop 100 ((full.map RestResp.ok) ++ RestResp.apiError :: rest) =
        ((full.map (fun p => p.filterMap login_value)).flatten, full.length + 1) := by
  intro full
  induction full with
  | nil =>
      intro _
      simpa using members_pages_loop_err rest
  | cons p rest' ih =>
      intro hfull
      simp only [List.map_cons, List.cons_append]
      rw [members_pages_loop_cons_full p (hfull p (List.mem_cons_self _ _))]
      rw [ih (fun q hq => hfull q (List.mem_cons_of_mem _ hq))]
      simp

theorem repos_pages_loop_error_after (rest : List (RestResp (Option String))) :
    ∀ full : List (List (Option String)), (∀ p ∈ full, p.length = 100) →
      repos_pages_loop 100 ((full.map RestResp.ok) ++ RestResp.apiError :: rest) =
        ((full.map (fun p => p.filterMap name_value)).flatten, full.length + 1) := by
  intro full
  induction full with
  | nil =>
      intro _
      simpa using repos_pages_loop_err rest
  | cons p rest' ih =>
      intro hfull
      simp only [List.map_cons, List.cons_append]
      rw [repos_pages_loop_cons_full p (hfull p (List.mem_cons_self _ _))]
      rw [ih (fun q hq => hfull q (List.mem_cons_of_mem _ hq))]
      simp

/-- C5, counterexample to the claim as stated: the source pages of sizes
`[80, 37]` have decreasing size and a last page shorter than the page size
(the claim's hypothesis), yet `get_organization_members` stops after the first
short page — it returns 80 logins in 1 request, not the 117-login
concatenation in `⌈117/100⌉ = 2` requests. -/
theorem c5_counterexample :
    (37 ≤ 80 ∧ 37 < 100) ∧
    get_organization_members
        [RestResp.ok (List.replicate 80 (some "u")), RestResp.ok (List.replicate 37 (some "v"))] =
      (List.replicate 80 "u", 1) ∧
    (List.replicate 80 "u").length ≠
      ((List.replicate 80 (some "u")).filterMap login_value ++
        (List.replicate 37 (some "v")).filterMap login_value).length ∧
    (1 : Nat) ≠ (80 + 37 + 99) / 100 := by
  refine ⟨by decide, by decide, by decide, by decide⟩

/-- C5 (amended): for a paged listing source whose pages all have exactly the
page size 100 except a final shorter (but non-empty) page,
`get_organization_members` terminates with the accumulator holding exactly the
(truthy) logins of the concatenation of all pages, and issues exactly
`⌈total/page_size⌉` requests, one per page. -/
theorem c5_pagination_amended :
    ∀ (full : List (List (Option String))) (last : List (Option String)),
      (∀ p ∈ full, p.length = 100) → 0 < last.length → last.length < 100 →
      get_organization_members ((full ++ [last]).map RestResp.ok) =
        (((full ++ [last]).map (fun p => p.filterMap login_value)).flatten, full.length + 1) ∧
      full.length + 1 = (((full ++ [last]).map List.length).sum + 99) / 100 := by
  intro full last hfull h0 h1
  have hne : last ≠ [] := by
    intro e
    rw [e] at h0
    simp at h0
  constructor
  · exact members_pages_loop_full_then_short last hne h1 full hfull
  · have hsum := sum_map_length_full full hfull
    simp only [List.map_append, List.map_cons, List.map_nil, List.sum_append, List.sum_cons,
      List.sum_nil]
    omega

set_option maxRecDepth 40000 in
/-- C5 witness: two full pages of 100 then a page of 37 — the amended theorem
yields 237 logins in exactly 3 requests. -/
theorem c5_pagination_witness :
    (fullPagesW.map List.length = [100, 100] ∧ 0 < lastPageW.length ∧ lastPageW.length < 100) ∧
    (get_organization_members ((fullPagesW ++ [lastPageW]).map RestResp.ok) =
        (((fullPagesW ++ [lastPageW]).map (fun p => p.filterMap login_value)).flatten,
          fullPagesW.length + 1) ∧
      fullPagesW.length + 1 = (((fullPagesW ++ [lastPageW]).map List.length).sum + 99) / 100) ∧
    (((fullPagesW ++ [lastPageW]).map (fun p => p.filterMap login_value)).flatten).length = 237 ∧
    fullPagesW.length + 1 = 3 := by
  refine ⟨⟨by decide, by decide, by decide⟩, ?_, by decide, by decide⟩
  exact c5_pagination_amended fullPagesW lastPageW (by decide) (by decide) (by decide)

/-- C6: if every earlier page was full (so paging continues) and the next page
request returns an API error, `get_organization_members` (and likewise
`get_organization_repos`) treats it as "no more results": it stops paging and
returns exactly the logins (resp. names) accumulated from the earlier
successful pages — whatever responses would follow the error are never
requested. -/
theorem c6_error_degrades_gracefully :
    ∀ (full : List (List (Option String))) (rest : List (RestResp (Option String))),
      (∀ p ∈ full, p.length = 100) →
      get_organization_members ((full.map RestResp.ok) ++ RestResp.apiError :: rest) =
        ((full.map (fun p => p.filterMap login_value)).flatten, full.length + 1) ∧
      get_organization_repos ((full.map RestResp.ok) ++ RestResp.apiError :: rest) =
        ((full.map (fun p => p.filterMap name_value)).flatten, full.length + 1) := by
  intro full rest hfull
  exact ⟨members_pages_loop_error_after rest full hfull,
         repos_pages_loop_error_after rest full hfull⟩

/-- C6 witness: one full page of 100 logins followed by an API error — both
enumerators return the 100 accumulated entries after 2 requests. -/
theorem c6_error_degrade_witness :
    ([List.replicate 100 (some "a")].map List.length = [100]) ∧
    (get_organization_members
        (([List.replicate 100 (some "a")].map RestResp.ok) ++ [RestResp.apiError]) =
      (([List.replicate 100 (some "a")].map (fun p => p.filterMap login_value)).flatten, 2) ∧
    get_organization_repos
        (([List.replicate 100 (some "a")].map RestResp.ok) ++ [RestResp.apiError]) =
      (([List.replicate 100 (some "a")].map (fun p => p.filterMap name_value)).flatten, 2)) := by
  refine ⟨by decide, ?_⟩
  exact c6_error_degrades_gracefully [List.replicate 100 (some "a")] [] (by decide)

/-- C7: the public entry point is total — it always returns a (possibly empty)
list, equal to the in-order filter of the member roster in which a member whose
metric aggregation raises is skipped and every other member contributes its
record; one member's failure never affects the rest of the batch. -/
theorem c7_fetch_total_skips_failures :
    ∀ org slugType members api now days_back ts utc,
      fetch_developer_activity_for_members org slugType members api now days_back ts utc =
        members.filterMap (fun m =>
          match api m with
          | Except.ok t =>
              some (build_activity_record org slugType m now days_back t.1 t.2.1 t.2.2 ts utc)
          | Except.error _ => none) := by
  intro org slugType members api now days_back ts utc
  unfold fetch_developer_activity_for_members
  split_ifs with h
  · rw [List.isEmpty_iff] at h
    rw [h]
    rfl
  · exact fetch_members_loop_eq org slugType api now days_back ts utc members

/-- C8: for every simulated developer and every day strictly before the
adoption date, `generate_copilot_metrics_for_day` returns nothing, while
`generate_developer_activity_for_day` runs its body with the productivity
multiplier fixed at `1.0` (no ramp, no persona multiplier) — and for suitable
draws it does still return a record. -/
theorem c8_pre_adoption_behavior :
    ∀ (dev : Developer) (date adoption : Int) (ts : String), date < adoption →
      (∀ rc : CopilotRand, generate_copilot_metrics_for_day dev date adoption rc ts = none) ∧
      (∀ ra : ActivityRand, generate_developer_activity_for_day dev date adoption ra ts =
        generate_developer_activity_core dev date ra ts 1) ∧
      (∃ ra : ActivityRand,
        (generate_developer_activity_for_day dev date adoption ra ts).isSome = true) := by
  intro dev date adoption ts h
  refine ⟨?_, ?_, ?_⟩
  · intro rc
    unfold generate_copilot_metrics_for_day
    rw [if_pos h]
  · intro ra
    unfold generate_developer_activity_for_day
    rw [if_neg (by omega : ¬ adoption ≤ date)]
  · refine ⟨raQuiet, ?_⟩
    unfold generate_developer_activity_for_day generate_developer_activity_core
    have hg1 : ¬(is_workday date = false ∧ raQuiet.weekend_draw > 15/100) := by
      intro hc
      exact absurd hc.2 (by norm_num [raQuiet])
    have hg2 : ¬(raQuiet.vacation_draw < 5/100) := by norm_num [raQuiet]
    rw [if_neg hg1, if_neg hg2]
    rfl

/-- C8 witness: a concrete developer/day five days before adoption — the
Copilot-metrics generator returns `none`. -/
theorem c8_pre_adoption_witness :
    (0 : Int) < 5 ∧ generate_copilot_metrics_for_day devA 0 5 crandA "t" = none :=
  ⟨by norm_num, (c8_pre_adoption_behavior devA 0 5 "t" (by norm_num)).1 crandA⟩

/-- C9: in both pipelines, whenever `period_days > 0`, the per-day rate fields
equal `round(counter / period_days, 2)` exactly: `commits_per_day` from
`commit_count`, `prs_per_day` from `prs_opened`, `reviews_per_day` from
`prs_reviewed`. -/
theorem c9_per_day_rates :
    (∀ org slugType member now days_back cm pm im ts utc, 0 < days_back →
      (build_activity_record org slugType member now days_back cm pm im ts utc).commits_per_day =
        round2
          (((build_activity_record org slugType member now days_back cm pm im ts
              utc).commit_count : Rat) /
            ((build_activity_record org slugType member now days_back cm pm im ts
              utc).period_days : Rat)) ∧
      (build_activity_record org slugType member now days_back cm pm im ts utc).prs_per_day =
        round2
          (((build_activity_record org slugType member now days_back cm pm im ts
              utc).prs_opened : Rat) /
            ((build_activity_record org slugType member now days_back cm pm im ts
              utc).period_days : Rat)) ∧
      (build_activity_record org slugType member now days_back cm pm im ts utc).reviews_per_day =
        round2
          (((build_activity_record org slugType member now days_back cm pm im ts
              utc).prs_reviewed : Rat) /
            ((build_activity_record org slugType member now days_back cm pm im ts
              utc).period_days : Rat))) ∧
    (∀ dev date adoption r ts,
      generate_developer_activity_for_day dev date adoption r ts = none ∨
      ∃ u, generate_developer_activity_for_day dev date adoption r ts = some u ∧
        0 < u.period_days ∧
        u.commits_per_day = round2 ((u.commit_count : Rat) / (u.period_days : Rat)) ∧
        u.prs_per_day = round2 ((u.prs_opened : Rat) / (u.period_days : Rat)) ∧
        u.reviews_per_day = round2 ((u.prs_reviewed : Rat) / (u.period_days : Rat))) := by
  constructor
  · intro org slugType member now days_back cm pm im ts utc _
    exact ⟨rfl, rfl, rfl⟩
  · intro dev date adoption r ts
    unfold generate_developer_activity_for_day generate_developer_activity_core
    split_ifs <;>
      first
        | exact Or.inl rfl
        | exact Or.inr ⟨_, rfl, zero_lt_one, rfl, rfl, rfl⟩

/-- C9 witness: the fetcher theorem applied at a concrete 28-day window. -/
theorem c9_per_day_rates_witness :
    (0 : Int) < 28 ∧
    ((build_activity_record "acme-corp" "Organization" "alex-chen" 20000 28 cmA pmA imA "t"
        "+00:00").commits_per_day =
      round2
        (((build_activity_record "acme-corp" "Organization" "alex-chen" 20000 28 cmA pmA imA "t"
            "+00:00").commit_count : Rat) /
          ((build_activity_record "acme-corp" "Organization" "alex-chen" 20000 28 cmA pmA imA "t"
            "+00:00").period_days : Rat)) ∧
    (build_activity_record "acme-corp" "Organization" "alex-chen" 20000 28 cmA pmA imA "t"
        "+00:00").prs_per_day =
      round2
        (((build_activity_record "acme-corp" "Organization" "alex-chen" 20000 28 cmA pmA imA "t"
            "+00:00").prs_opened : Rat) /
          ((build_activity_record "acme-corp" "Organization" "alex-chen" 20000 28 cmA pmA imA "t"
            "+00:00").period_days : Rat)) ∧
    (build_activity_record "acme-corp" "Organization" "alex-chen" 20000 28 cmA pmA imA "t"
        "+00:00").reviews_per_day =
      round2
        (((build_activity_record "acme-corp" "Organization" "alex-chen" 20000 28 cmA pmA imA "t"
            "+00:00").prs_reviewed : Rat) /
          ((build_activity_record "acme-corp" "Organization" "alex-chen" 20000 28 cmA pmA imA "t"
            "+00:00").period_days : Rat))) :=
  ⟨by norm_num,
   c9_per_day_rates.1 "acme-corp" "Organization" "alex-chen" 20000 28 cmA pmA imA "t" "+00:00"
     (by norm_num)⟩

/-- C10: under the `random.randint`/`random.uniform` range contracts of the
draws (interactions in `[20,60]`, generations in `[30,80]`, acceptance draw in
the persona's non-negative range, LOC-per-generation in `[3,12]`, LOC jitter
in `[0.8,1.0]`), every record emitted by `generate_copilot_metrics_for_day`
has an effective acceptance rate of at most the absolute ceiling `0.45`, hence
`code_acceptance_activity_count ≤ code_generation_activity_count`, and the
interaction/generation/acceptance counters, `loc_suggested_to_add_sum` and
`loc_added_sum` are all non-negative integers. -/
theorem c10_acceptance_cap :
    ∀ (dev : Developer) (date adoption : Int) (r : CopilotRand) (ts : String),
      20 ≤ r.interactions_draw → r.interactions_draw ≤ 60 →
      30 ≤ r.code_gen_draw → r.code_gen_draw ≤ 80 →
      0 ≤ dev.persona_config.acceptance_rate_range.1 →
      dev.persona_config.acceptance_rate_range.1 ≤ r.acceptance_draw →
      r.acceptance_draw ≤ dev.persona_config.acceptance_rate_range.2 →
      3 ≤ r.loc_per_gen_draw → r.loc_per_gen_draw ≤ 12 →
      4/5 ≤ r.loc_added_jitter → r.loc_added_jitter ≤ 1 →
      (generate_copilot_metrics_for_day dev date adoption r ts = none ∨
       ∃ u, generate_copilot_metrics_for_day dev date adoption r ts = some u ∧
         effective_acceptance_rate r dev.persona_config (date - adoption) ≤ 45/100 ∧
         u.code_acceptance_activity_count ≤ u.code_generation_activity_count ∧
         0 ≤ u.code_generation_activity_count ∧
         0 ≤ u.code_acceptance_activity_count ∧
         0 ≤ u.user_initiated_interaction_count ∧
         0 ≤ u.loc_suggested_to_add_sum ∧
         0 ≤ u.loc_added_sum) := by
  intro dev date adoption r ts hi1 hi2 hcg1 hcg2 har0 har1 har2 hlpg1 hlpg2 hjit1 hjit2
  rcases lt_or_ge date adoption with hlt | hge
  · left
    simp only [generate_copilot_metrics_for_day]
    rw [if_pos hlt]
  · by_cases hdru : r.adoption_draw > dev.persona_config.copilot_adoption_rate
    · left
      simp only [generate_copilot_metrics_for_day]
      rw [if_neg (not_lt.mpr hge), if_pos hdru]
    · by_cases hwk : is_workday date = false ∧ r.weekend_draw > 1/10
      · left
        simp only [generate_copilot_metrics_for_day]
        rw [if_neg (not_lt.mpr hge), if_neg hdru, if_pos hwk]
      · right
        have hd : (0 : Int) ≤ date - adoption := by omega
        have hum0 : 0 ≤ usage_multiplier (date - adoption) := usage_multiplier_nonneg hd
        have hcgq : (0 : Rat) ≤ (r.code_gen_draw : Rat) := by
          exact_mod_cast (by omega : (0 : Int) ≤ r.code_gen_draw)
        have hintq : (0 : Rat) ≤ (r.interactions_draw : Rat) := by
          exact_mod_cast (by omega : (0 : Int) ≤ r.interactions_draw)
        have hCG0 : 0 ≤ truncInt ((r.code_gen_draw : Rat) * usage_multiplier (date - adoption)) :=
          truncInt_nonneg (mul_nonneg hcgq hum0)
        have hCGq : (0 : Rat) ≤
            ((truncInt ((r.code_gen_draw : Rat) * usage_multiplier (date - adoption)) : Int) :
              Rat) := by
          exact_mod_cast hCG0
        have hr0 : 0 ≤ effective_acceptance_rate r dev.persona_config (date - adoption) :=
          effective_acceptance_rate_nonneg r dev.persona_config (date - adoption)
            (le_trans har0 har1)
        have hr1 : effective_acceptance_rate r dev.persona_config (date - adoption) ≤ 1 :=
          le_trans (effective_acceptance_rate_le_cap r dev.persona_config (date - adoption))
            (by norm_num)
        have hlpg0 : (0 : Int) ≤ r.loc_per_gen_draw := by omega
        have hLS0 : 0 ≤
            truncInt ((r.code_gen_draw : Rat) * usage_multiplier (date - adoption)) *
              r.loc_per_gen_draw := mul_nonneg hCG0 hlpg0
        have hLSq : (0 : Rat) ≤
            ((truncInt ((r.code_gen_draw : Rat) * usage_multiplier (date - adoption)) *
              r.loc_per_gen_draw : Int) : Rat) := by
          exact_mod_cast hLS0
        have hjq : (0 : Rat) ≤ r.loc_added_jitter := le_trans (by norm_num) hjit1
        simp only [generate_copilot_metrics_for_day]
        rw [if_neg (not_lt.mpr hge), if_neg hdru, if_neg hwk]
        refine ⟨_, rfl,
          effective_acceptance_rate_le_cap r dev.persona_config (date - adoption),
          ?_, ?_, ?_, ?_, ?_, ?_⟩
        · show truncInt
              (((truncInt ((r.code_gen_draw : Rat) * usage_multiplier (date - adoption)) : Int) :
                  Rat) *
                effective_acceptance_rate r dev.persona_config (date - adoption)) ≤
            truncInt ((r.code_gen_draw : Rat) * usage_multiplier (date - adoption))
          exact truncInt_le_intCast (mul_nonneg hCGq hr0) (mul_le_of_le_one_right hCGq hr1)
        · show 0 ≤ truncInt ((r.code_gen_draw : Rat) * usage_multiplier (date - adoption))
          exact hCG0
        · show 0 ≤ truncInt
              (((truncInt ((r.code_gen_draw : Rat) * usage_multiplier (date - adoption)) : Int) :
                  Rat) *
                effective_acceptance_rate r dev.persona_config (date - adoption))
          exact truncInt_nonneg (mul_nonneg hCGq hr0)
        · show 0 ≤ truncInt ((r.interactions_draw : Rat) * usage_multiplier (date - adoption))
          exact truncInt_nonneg (mul_nonneg hintq hum0)
        · show 0 ≤
            truncInt ((r.code_gen_draw : Rat) * usage_multiplier (date - adoption)) *
              r.loc_per_gen_draw
          exact hLS0
        · show 0 ≤ truncInt
              (((truncInt ((r.code_gen_draw : Rat) * usage_multiplier (date - adoption)) *
                  r.loc_per_gen_draw : Int) : Rat) *
                effective_acceptance_rate r dev.persona_config (date - adoption) *
                r.loc_added_jitter)
          exact truncInt_nonneg (mul_nonneg (mul_nonneg hLSq hr0) hjq)

/-- C10 witness: the invariant theorem applied to a concrete regular-persona
developer with in-range draws, ten days after adoption. -/
theorem c10_acceptance_cap_witness :
    ((20 : Int) ≤ crandA.interactions_draw ∧ crandA.interactions_draw ≤ 60 ∧
     (30 : Int) ≤ crandA.code_gen_draw ∧ crandA.code_gen_draw ≤ 80 ∧
     0 ≤ devA.persona_config.acceptance_rate_range.1 ∧
     devA.persona_config.acceptance_rate_range.1 ≤ crandA.acceptance_draw ∧
     crandA.acceptance_draw ≤ devA.persona_config.acceptance_rate_range.2 ∧
     (3 : Int) ≤ crandA.loc_per_gen_draw ∧ crandA.loc_per_gen_draw ≤ 12 ∧
     4/5 ≤ crandA.loc_added_jitter ∧ crandA.loc_added_jitter ≤ 1) ∧
    (generate_copilot_metrics_for_day devA 10 0 crandA "t" = none ∨
     ∃ u, generate_copilot_metrics_for_day devA 10 0 crandA "t" = some u ∧
       effective_acceptance_rate crandA devA.persona_config (10 - 0) ≤ 45/100 ∧
       u.code_acceptance_activity_count ≤ u.code_generation_activity_count ∧
       0 ≤ u.code_generation_activity_count ∧
       0 ≤ u.code_acceptance_activity_count ∧
       0 ≤ u.user_initiated_interaction_count ∧
       0 ≤ u.loc_suggested_to_add_sum ∧
       0 ≤ u.loc_added_sum) := by
  constructor
  · refine ⟨?_, ?_, ?_, ?_, ?_, ?_, ?_, ?_, ?_, ?_, ?_⟩ <;> norm_num [crandA, devA, regular]
  · exact c10_acceptance_cap devA 10 0 crandA "t" (by norm_num [crandA])
      (by norm_num [crandA]) (by norm_num [crandA]) (by norm_num [crandA])
      (by norm_num [devA, regular]) (by norm_num [crandA, devA, regular])
      (by norm_num [crandA, devA, regular]) (by norm_num [crandA]) (by norm_num [crandA])
      (by norm_num [crandA]) (by norm_num [crandA])
